import Mathlib

/-!
# Shallow embedding of the Vivare checkout core

Definitions are translated from the TypeScript source:
* `src/vivare-api/src/models/checkout.ts` — states, transition graph, document shape
* `src/functions/src/lib/state-machine.ts` — `transitionState`, `tryTransitionState`
* `src/vivare-api/src/services/checkout-service.ts` — orchestrator operations
* `src/vivare-api/src/services/stays-client.ts` — PMS HTTP retry loop
* `src/unnamed/part_001` — checkout routes and the Stripe webhook ingress

Timestamps are modelled as `Nat` (epoch milliseconds).  External calls (PMS,
PSP, document store) are modelled by explicit oracle functions passed as
arguments, and the side effects an operation performs (PMS calls issued,
document writes) are returned explicitly so theorems can speak about them.
Monetary values are integers (`Int`); `Math.round (t * 100)` on an integer
`t` is exactly `t * 100`, which is how the scaling in `createPaymentIntent`
is rendered.
-/

namespace Vivare

/-- Checkout states, from the `CheckoutState` enum in `models/checkout.ts`. -/
inductive CheckoutState
  | INITIATED
  | HOLD_CREATED
  | PAYMENT_CREATED
  | PAID
  | BOOKED
  | CANCELED
  | EXPIRED
  | FAILED
deriving DecidableEq, Repr

open CheckoutState

/-- `VALID_TRANSITIONS` map from `models/checkout.ts`. -/
def VALID_TRANSITIONS : CheckoutState → List CheckoutState
  | INITIATED => [HOLD_CREATED, CANCELED, FAILED]
  | HOLD_CREATED => [PAYMENT_CREATED, EXPIRED, CANCELED, FAILED]
  | PAYMENT_CREATED => [PAID, EXPIRED, CANCELED, FAILED]
  | PAID => [BOOKED, FAILED]
  | BOOKED => [CANCELED]
  | CANCELED => []
  | EXPIRED => []
  | FAILED => []

/-- `TERMINAL_STATES` from `models/checkout.ts`. -/
def TERMINAL_STATES : List CheckoutState := [BOOKED, CANCELED, EXPIRED, FAILED]

/-- `EXPIRABLE_STATES` from `models/checkout.ts`. -/
def EXPIRABLE_STATES : List CheckoutState := [HOLD_CREATED, PAYMENT_CREATED]

/-- `isValidTransition` from `models/checkout.ts`. -/
def isValidTransition (fromS toS : CheckoutState) : Bool :=
  (VALID_TRANSITIONS fromS).contains toS

/-- `isTerminal` from `models/checkout.ts`. -/
def isTerminal (s : CheckoutState) : Bool :=
  TERMINAL_STATES.contains s

/-- `canExpire` from `models/checkout.ts`. -/
def canExpire (s : CheckoutState) : Bool :=
  EXPIRABLE_STATES.contains s

/-- Transition actors (`'user' | 'system' | 'webhook'`). -/
inductive Actor
  | user
  | system
  | webhook
deriving DecidableEq, Repr

/-- `StateTransition` record from `models/checkout.ts` (`from`/`to` are
Lean keywords, rendered `fromState`/`toState`). -/
structure StateTransition where
  fromState : CheckoutState
  toState : CheckoutState
  timestamp : Nat
  reason : Option String
  actor : Actor
deriving DecidableEq, Repr

/-- `Guests` from `models/checkout.ts`. -/
structure Guests where
  adults : Nat
  children : Nat
  infants : Nat
deriving DecidableEq, Repr

/-- `GuestInfo` from `models/checkout.ts`. -/
structure GuestInfo where
  firstName : String
  lastName : String
  email : String
  phone : String
  document : Option String
deriving DecidableEq, Repr

/-- `QuoteBreakdown` from `models/checkout.ts`. -/
structure QuoteBreakdown where
  subtotal : Int
  cleaningFee : Int
  serviceFee : Int
  taxes : Int
deriving DecidableEq, Repr

/-- `Quote` from `models/checkout.ts` (the Locked Quote). -/
structure Quote where
  total : Int
  currency : String
  breakdown : QuoteBreakdown
  hash : String
  expiresAt : Nat
deriving DecidableEq, Repr

/-- `CheckoutMetadata` from `models/checkout.ts`. -/
structure CheckoutMetadata where
  userAgent : Option String
  ipAddress : Option String
  referrer : Option String
deriving DecidableEq, Repr

/-- The `Checkout` document from `models/checkout.ts`.  Note that it has no
client-secret field: `stripePaymentIntentId` is the only Stripe datum. -/
structure Checkout where
  checkoutId : String
  createdAt : Nat
  updatedAt : Nat
  state : CheckoutState
  stateHistory : List StateTransition
  listingId : String
  listingName : Option String
  checkIn : String
  checkOut : String
  guests : Guests
  quote : Quote
  guest : Option GuestInfo
  staysReservationId : Option String
  staysBookingCode : Option String
  stripePaymentIntentId : Option String
  idempotencyKey : String
  holdExpiresAt : Option Nat
  retryCount : Nat
  metadata : CheckoutMetadata
deriving DecidableEq, Repr

/-- The `updates` payload of `TransitionOptions`
(`Partial<Omit<Checkout, 'state' | 'stateHistory' | 'updatedAt'>>`): the
repository only ever passes `stripePaymentIntentId` (from
`createPaymentIntent`) and `staysBookingCode` (from
`handlePaymentSucceeded`); a `none` field means the key is absent from the
partial object. -/
structure CheckoutUpdates where
  stripePaymentIntentId : Option String := none
  staysBookingCode : Option String := none
deriving DecidableEq, Repr

/-- Object-spread merge `{ ...options.updates }` over the checkout: an
absent key leaves the document's field alone. -/
def mergeUpdates (c : Checkout) (u : CheckoutUpdates) : Checkout :=
  { c with
    stripePaymentIntentId :=
      match u.stripePaymentIntentId with
      | some v => some v
      | none => c.stripePaymentIntentId
    staysBookingCode :=
      match u.staysBookingCode with
      | some v => some v
      | none => c.staysBookingCode }

/-- `TransitionOptions` from `state-machine.ts`. -/
structure TransitionOptions where
  reason : Option String := none
  actor : Actor
  updates : CheckoutUpdates := {}
deriving DecidableEq, Repr

/-- The two `StateMachineError` throw sites of `transitionState`:
`invalidTransition` for "Invalid state transition from … to …" and
`terminalState` for "Cannot transition from terminal state …". -/
inductive StateMachineErr
  | invalidTransition (current target : CheckoutState)
  | terminalState (current target : CheckoutState)
deriving DecidableEq, Repr

/-- `transitionState` from `state-machine.ts`, over the loaded document
(the missing-document throw happens at load and is modelled by callers):
self-transition is a no-op, then the `isValidTransition` check, then the
`isTerminal` check, then the write (merge updates, set state, append one
history entry, stamp `updatedAt`). -/
def transitionState (checkout : Checkout) (targetState : CheckoutState)
    (options : TransitionOptions) (now : Nat) :
    Except StateMachineErr Checkout :=
  let currentState := checkout.state
  if currentState = targetState then
    .ok checkout
  else if ¬ isValidTransition currentState targetState then
    .error (.invalidTransition currentState targetState)
  else if isTerminal currentState then
    .error (.terminalState currentState targetState)
  else
    let t : StateTransition :=
      { fromState := currentState
        toState := targetState
        timestamp := now
        reason := options.reason
        actor := options.actor }
    .ok { mergeUpdates checkout options.updates with
          state := targetState
          stateHistory := checkout.stateHistory ++ [t]
          updatedAt := now }

/-- `tryTransitionState` from `state-machine.ts`: returns `none` where
`transitionState` throws a `StateMachineError`. -/
def tryTransitionState (checkout : Checkout) (targetState : CheckoutState)
    (options : TransitionOptions) (now : Nat) : Option Checkout :=
  match transitionState checkout targetState options now with
  | .ok c => some c
  | .error _ => none

/-! ## Checkout orchestrator (`checkout-service.ts`) -/

/-- JavaScript string truthiness for `s || dflt`: `undefined` and the empty
string both fall through to the default. -/
def jsOr (s : Option String) (dflt : String) : String :=
  match s with
  | some r => if r = "" then dflt else r
  | none => dflt

/-- `updateGuestInfo` from `checkout-service.ts`, over the loaded document:
a plain `docRef.update({ guest, updatedAt })` — no state check of any kind,
then the updated document is read back and returned. -/
def updateGuestInfo (checkout : Checkout) (guest : GuestInfo) (now : Nat) :
    Checkout :=
  { checkout with guest := some guest, updatedAt := now }

/-- A Stays reservation as returned by `createReservation`
(`_id` and guest-facing `code`). -/
structure StaysReservation where
  resId : String
  code : String
deriving DecidableEq, Repr

/-- The throw sites of `createHold`: the `StateMachineError` for a
non-INITIATED state and the plain `Error` for missing guest email. -/
inductive HoldErr
  | invalidState (current : CheckoutState)
  | guestRequired
deriving DecidableEq, Repr

/-- Result of `createHold` together with whether the PMS
`createReservation` call was issued inside the transaction. -/
structure HoldOutcome where
  checkout : Checkout
  pmsCreateCalled : Bool
deriving DecidableEq, Repr

/-- `createHold` from `checkout-service.ts`, over the loaded document.
`createReservation` is the PMS oracle (what Stays would answer for this
checkout's reservation payload); `holdTtlMinutes` is `HOLD_TTL_MINUTES`.
The fast path returns the document as-is when the state is already
`HOLD_CREATED` or `staysReservationId` is set, before any PMS traffic. -/
def createHold (checkout : Checkout)
    (createReservation : Unit → StaysReservation)
    (now : Nat) (holdTtlMinutes : Nat) : Except HoldErr HoldOutcome :=
  if checkout.state = HOLD_CREATED ∨ checkout.staysReservationId.isSome then
    .ok { checkout := checkout, pmsCreateCalled := false }
  else if checkout.state ≠ INITIATED then
    .error (.invalidState checkout.state)
  else
    match checkout.guest with
    | none => .error .guestRequired
    | some g =>
      if g.email = "" then .error .guestRequired
      else
        let reservation := createReservation ()
        let holdExpiresAt := now + holdTtlMinutes * 60 * 1000
        let t : StateTransition :=
          { fromState := checkout.state
            toState := HOLD_CREATED
            timestamp := now
            reason := some "Hold created in Stays"
            actor := .system }
        .ok { checkout :=
                { checkout with
                  state := HOLD_CREATED
                  staysReservationId := some reservation.resId
                  holdExpiresAt := some holdExpiresAt
                  updatedAt := now
                  stateHistory := checkout.stateHistory ++ [t] }
              pmsCreateCalled := true }

/-- The request payload of `stripe.paymentIntents.create` as assembled by
`createPaymentIntent` (amount, currency, metadata, description,
receipt email). -/
structure PaymentIntentRequest where
  amount : Int
  currency : String
  metaCheckoutId : String
  metaListingId : String
  metaStaysReservationId : Option String
  metaCheckIn : String
  metaCheckOut : String
  description : String
  receiptEmail : Option String
deriving DecidableEq, Repr

/-- A Stripe PaymentIntent as seen by the service: its id (persisted) and
its client secret (returned to the caller, never persisted). -/
structure PaymentIntent where
  id : String
  clientSecret : String
deriving DecidableEq, Repr

/-- The throw sites of `createPaymentIntent`. -/
inductive CpiErr
  | invalidState (current : CheckoutState)
  | unsupportedCurrency (currency : String)
  | stateMachine (e : StateMachineErr)
deriving DecidableEq, Repr

/-- `createPaymentIntent`'s effects: the PSP create request issued (if
any), the transitioned document written (if any), and the response body
`{ clientSecret, state }` returned to the HTTP caller. -/
structure CpiOutcome where
  pspCreateRequest : Option PaymentIntentRequest
  write : Option Checkout
  clientSecret : String
  state : CheckoutState
deriving DecidableEq, Repr

/-- `String.prototype.toUpperCase()` on the ASCII currency codes involved
(Lean's `String.toUpper` is definitionally opaque, so the map over the
character list is spelled out). -/
def jsToUpperCase (s : String) : String :=
  ⟨s.data.map Char.toUpper⟩

/-- The `stripe.paymentIntents.create` request assembled by
`createPaymentIntent` from the checkout: the amount is
`Math.round(quote.total * 100)` ("convert to centavos"), which on the
integer totals of this model is exactly `quote.total * 100`; an undefined
`listingName` renders as "undefined" inside the template literal. -/
def cpiRequest (checkout : Checkout) : PaymentIntentRequest :=
  { amount := checkout.quote.total * 100
    currency := "brl"
    metaCheckoutId := checkout.checkoutId
    metaListingId := checkout.listingId
    metaStaysReservationId := checkout.staysReservationId
    metaCheckIn := checkout.checkIn
    metaCheckOut := checkout.checkOut
    description :=
      "Reserva " ++ checkout.listingName.getD "undefined" ++ " - "
        ++ checkout.checkIn ++ " a " ++ checkout.checkOut
    receiptEmail := (checkout.guest).map GuestInfo.email }

/-- The `transitionState` options used by `createPaymentIntent`: actor
system, and the PaymentIntent id (never the client secret) as the extra
update. -/
def cpiOptions (piId : String) : TransitionOptions :=
  { actor := .system
    reason := some "PaymentIntent created"
    updates := { stripePaymentIntentId := some piId } }

/-- `createPaymentIntent` from `checkout-service.ts`, over the loaded
document.  `retrieve` models `stripe.paymentIntents.retrieve`; `create`
models `stripe.paymentIntents.create`. -/
def createPaymentIntent (checkout : Checkout)
    (retrieve : String → PaymentIntent)
    (create : PaymentIntentRequest → PaymentIntent)
    (now : Nat) : Except CpiErr CpiOutcome :=
  match checkout.stripePaymentIntentId with
  | some piId =>
    let existing := retrieve piId
    .ok { pspCreateRequest := none
          write := none
          clientSecret := existing.clientSecret
          state := checkout.state }
  | none =>
    if checkout.state ≠ HOLD_CREATED then
      .error (.invalidState checkout.state)
    else if jsToUpperCase checkout.quote.currency ≠ "BRL" then
      .error (.unsupportedCurrency checkout.quote.currency)
    else
      let pi := create (cpiRequest checkout)
      match transitionState checkout PAYMENT_CREATED (cpiOptions pi.id) now with
      | .error e => .error (.stateMachine e)
      | .ok updated =>
        .ok { pspCreateRequest := some (cpiRequest checkout)
              write := some updated
              clientSecret := pi.clientSecret
              state := PAYMENT_CREATED }

/-- Trace of the PMS calls `handlePaymentSucceeded` issues:
reservation ids passed to `updateReservation {type: booked}`, payment
references passed to `registerPayment`, reservation ids passed to
`getReservation`. -/
structure StaysTrace where
  updateCalls : List String
  paymentRefs : List String
  getCalls : List String
deriving DecidableEq, Repr

/-- The empty PMS trace. -/
def StaysTrace.none : StaysTrace := { updateCalls := [], paymentRefs := [], getCalls := [] }

/-- `handlePaymentSucceeded` from `checkout-service.ts`, over the loaded
document.  `reservationCode` is what `getReservation` reports as the
booking `code`; `now` stamps the PAID transition and `now2` the BOOKED
one.  The PMS-call trace is returned even when a transition throws, so
theorems can state which external calls were (not) made.  Note the code
calls the throwing `transitionState`, not `tryTransitionState`. -/
def handlePaymentSucceeded (checkout : Checkout) (paymentIntentId : String)
    (reservationCode : String) (now now2 : Nat) :
    Except StateMachineErr Checkout × StaysTrace :=
  match transitionState checkout PAID
      { actor := .webhook, reason := some "Payment succeeded" } now with
  | .error e => (.error e, StaysTrace.none)
  | .ok c1 =>
    if c1.state = BOOKED then
      (.ok c1, StaysTrace.none)
    else
      let rid := c1.staysReservationId.getD ""
      let trace : StaysTrace :=
        { updateCalls := [rid], paymentRefs := [paymentIntentId], getCalls := [rid] }
      match transitionState c1 BOOKED
          { actor := .system
            reason := some "Stays reservation confirmed"
            updates := { staysBookingCode := some reservationCode } } now2 with
      | .error e => (.error e, trace)
      | .ok c2 => (.ok c2, trace)

/-- Outcome of one PMS `cancelReservation` call as seen by the service:
the PATCH either succeeds or throws a `StaysApiError` with a status. -/
inductive StaysCancelResult
  | ok
  | err (status : Nat)
deriving DecidableEq, Repr

/-- The throw sites of `cancelCheckout`. -/
inductive CancelErr
  | staysError (status : Nat)
  | stateMachine (e : StateMachineErr)
deriving DecidableEq, Repr

/-- `cancelCheckout` from `checkout-service.ts`, over the loaded document.
`cancelReservation` is the PMS oracle; the returned `Bool` records whether
the PMS cancel call was issued.  There is no try/catch around the PMS
call: its error propagates and the CANCELED transition is never reached. -/
def cancelCheckout (checkout : Checkout) (reason : Option String)
    (cancelReservation : String → StaysCancelResult) (now : Nat) :
    Except CancelErr Checkout × Bool :=
  match checkout.staysReservationId with
  | some rid =>
    match cancelReservation rid with
    | .err s => (.error (.staysError s), true)
    | .ok =>
      match transitionState checkout CANCELED
          { actor := .user, reason := some (jsOr reason "User canceled") } now with
      | .error e => (.error (.stateMachine e), true)
      | .ok c => (.ok c, true)
  | none =>
    match transitionState checkout CANCELED
        { actor := .user, reason := some (jsOr reason "User canceled") } now with
    | .error e => (.error (.stateMachine e), false)
    | .ok c => (.ok c, false)

/-! ## Stays HTTP retry loop (`stays-client.ts`) -/

/-- `MAX_RETRIES` constant from `stays-client.ts`. -/
def MAX_RETRIES : Nat := 2

/-- `RETRY_DELAY_MS` constant from `stays-client.ts`. -/
def RETRY_DELAY_MS : Nat := 1000

/-- What one `fetch` attempt does, as seen by the `request` loop: the
response is ok, the response has a non-ok HTTP status (thrown as
`StaysApiError status`), or the abort controller fires (`AbortError`). -/
inductive AttemptOutcome
  | success
  | httpError (status : Nat)
  | abortTimeout
deriving DecidableEq, Repr

/-- Result of `StaysClient.request`: data, or a thrown `StaysApiError`
(a timeout is rethrown as `StaysApiError 408`). -/
inductive RequestResult
  | ok
  | staysError (status : Nat)
deriving DecidableEq, Repr

/-- The `for (let attempt = 1; attempt <= maxAttempts; attempt++)` body of
`StaysClient.request`: `outcomes n` is the n-th attempt's fate.  A 4xx
`StaysApiError` and an abort are rethrown at once; a 5xx retries after a
`RETRY_DELAY_MS * 2^(attempt-1)` sleep while attempts remain, and the last
error is rethrown when the loop ends.  Returns the result, the number of
attempts performed, and the backoff delays slept. -/
def requestAttemptsFrom (outcomes : Nat → AttemptOutcome) :
    Nat → Nat → List Nat → RequestResult × Nat × List Nat
  | 0, attempt, delays => (.staysError 0, attempt - 1, delays)
  | remaining + 1, attempt, delays =>
    match outcomes attempt with
    | .success => (.ok, attempt, delays)
    | .abortTimeout => (.staysError 408, attempt, delays)
    | .httpError s =>
      if s < 500 then (.staysError s, attempt, delays)
      else
        match remaining with
        | 0 => (.staysError s, attempt, delays)
        | r + 1 =>
          requestAttemptsFrom outcomes (r + 1) (attempt + 1)
            (delays ++ [RETRY_DELAY_MS * 2 ^ (attempt - 1)])

/-- `StaysClient.request`: `maxAttempts = retry ? MAX_RETRIES : 1`.  The
read/cacheable operations (`searchListings`, `getListingDetail`,
`getListingCalendar`, `calculatePrice`, `getReservation`) all pass
`retry: true`. -/
def staysRequest (outcomes : Nat → AttemptOutcome) (retry : Bool) :
    RequestResult × Nat × List Nat :=
  requestAttemptsFrom outcomes (if retry then MAX_RETRIES else 1) 1 []

/-! ## Stripe webhook ingress (`src/unnamed/part_001`, `POST /webhooks/stripe`) -/

/-- A verified Stripe event, as the handler's `switch` sees it. -/
inductive WebhookEvent
  | paymentIntentSucceeded (piId : String) (metaCheckoutId : Option String)
  | paymentIntentFailed (piId : String) (metaCheckoutId : Option String)
      (failureMessage : Option String)
  | chargeRefunded (piId : String)
  | other (eventType : String)
deriving DecidableEq, Repr

/-- The JSON body the ingress answers with. -/
inductive WebhookBody
  | received
  | alreadyProcessed
  | processingFailed
deriving DecidableEq, Repr

/-- The ingress's observable outcome: HTTP status, body, whether
`markProcessed()` was called, and the checkoutId a service handler was
dispatched for (if any). -/
structure WebhookResponse where
  status : Nat
  body : WebhookBody
  markedProcessed : Bool
  dispatched : Option String
deriving DecidableEq, Repr

/-- JavaScript falsiness of `paymentIntent.metadata?.checkoutId` in the
`if (!checkoutId)` guards: missing or empty. -/
def jsStrFalsy : Option String → Bool
  | none => true
  | some s => s = ""

/-- The `POST /webhooks/stripe` handler after successful signature
verification.  `alreadyProcessed` is what `checkWebhookIdempotency`
reported; `store` is the checkouts collection (`none` makes the service's
document load throw, caught by the ingress as a 500).  `markProcessed()`
runs only after the dispatched handler returns; on a handler exception the
ingress answers 500 without marking.  The `StaysTrace` reports the PMS
calls the dispatched `handlePaymentSucceeded` issued. -/
def stripeWebhookIngress (alreadyProcessed : Bool) (event : WebhookEvent)
    (store : String → Option Checkout) (reservationCode : String)
    (now now2 : Nat) : WebhookResponse × StaysTrace :=
  if alreadyProcessed then
    ({ status := 200, body := .alreadyProcessed, markedProcessed := false,
       dispatched := none }, StaysTrace.none)
  else
    match event with
    | .paymentIntentSucceeded piId mcid =>
      if jsStrFalsy mcid then
        ({ status := 200, body := .received, markedProcessed := true,
           dispatched := none }, StaysTrace.none)
      else
        let cid := mcid.getD ""
        match store cid with
        | none =>
          ({ status := 500, body := .processingFailed, markedProcessed := false,
             dispatched := some cid }, StaysTrace.none)
        | some c =>
          match handlePaymentSucceeded c piId reservationCode now now2 with
          | (.error _, trace) =>
            ({ status := 500, body := .processingFailed, markedProcessed := false,
               dispatched := some cid }, trace)
          | (.ok _, trace) =>
            ({ status := 200, body := .received, markedProcessed := true,
               dispatched := some cid }, trace)
    | .paymentIntentFailed _ mcid _ =>
      if jsStrFalsy mcid then
        ({ status := 200, body := .received, markedProcessed := true,
           dispatched := none }, StaysTrace.none)
      else
        let cid := mcid.getD ""
        match store cid with
        | none =>
          ({ status := 500, body := .processingFailed, markedProcessed := false,
             dispatched := some cid }, StaysTrace.none)
        | some _ =>
          ({ status := 200, body := .received, markedProcessed := true,
             dispatched := some cid }, StaysTrace.none)
    | .chargeRefunded _ =>
      ({ status := 200, body := .received, markedProcessed := true,
         dispatched := none }, StaysTrace.none)
    | .other _ =>
      ({ status := 200, body := .received, markedProcessed := true,
         dispatched := none }, StaysTrace.none)

/-! ## Concrete documents, for witnesses and counterexamples -/

/-- A locked quote with `total = 120000` (the spec's happy-path total) in
BRL. -/
def sampleQuote : Quote :=
  { total := 120000
    currency := "BRL"
    breakdown := { subtotal := 100000, cleaningFee := 10000, serviceFee := 5000, taxes := 5000 }
    hash := "0fh4sh"
    expiresAt := 1800000 }

/-- A guest with a non-empty email. -/
def sampleGuest : GuestInfo :=
  { firstName := "Ana"
    lastName := "Silva"
    email := "ana@example.com"
    phone := "+5511999990000"
    document := none }

/-- A freshly initialized checkout (state INITIATED, seed history entry). -/
def initiatedCheckout : Checkout :=
  { checkoutId := "ck_1"
    createdAt := 0
    updatedAt := 0
    state := INITIATED
    stateHistory := [{ fromState := INITIATED, toState := INITIATED, timestamp := 0,
                       reason := some "Checkout initialized", actor := .user }]
    listingId := "L1"
    listingName := some "Casa Azul"
    checkIn := "2026-11-01"
    checkOut := "2026-11-04"
    guests := { adults := 2, children := 1, infants := 0 }
    quote := sampleQuote
    guest := some sampleGuest
    staysReservationId := none
    staysBookingCode := none
    stripePaymentIntentId := none
    idempotencyKey := "idem-1"
    holdExpiresAt := none
    retryCount := 0
    metadata := { userAgent := none, ipAddress := none, referrer := none } }

/-- The same checkout after a hold was created. -/
def holdCheckout : Checkout :=
  { initiatedCheckout with
    state := HOLD_CREATED
    staysReservationId := some "R1"
    holdExpiresAt := some 900000 }

/-- The same checkout in the BOOKED terminal state. -/
def bookedCheckout : Checkout :=
  { holdCheckout with
    state := BOOKED
    staysBookingCode := some "B42"
    stripePaymentIntentId := some "pi_1" }

/-- The same checkout after the hold expired. -/
def expiredCheckout : Checkout :=
  { holdCheckout with state := EXPIRED }

/-- The same checkout after a user cancellation. -/
def canceledCheckout : Checkout :=
  { initiatedCheckout with state := CANCELED }

/-- A PSP retrieve oracle. -/
def pspRetrieveStub : String → PaymentIntent :=
  fun s => { id := s, clientSecret := "cs_stub" }

/-- A PSP create oracle. -/
def pspCreateStub : PaymentIntentRequest → PaymentIntent :=
  fun _ => { id := "pi_1", clientSecret := "cs_1" }

/-- A PSP create oracle answering the same id as `pspCreateStub` but a
different client secret. -/
def pspCreateStubB : PaymentIntentRequest → PaymentIntent :=
  fun _ => { id := "pi_1", clientSecret := "cs_2" }

/-- A Stays reservation oracle. -/
def staysCreateStub : Unit → StaysReservation :=
  fun _ => { resId := "R1", code := "B42" }

/-! ## Helper lemmas -/

/-- The write branch of `transitionState`, spelled out. -/
theorem transitionState_ok_of_valid (c : Checkout) (t : CheckoutState)
    (o : TransitionOptions) (now : Nat) (hne : ¬ c.state = t)
    (hv : isValidTransition c.state t = true)
    (ht : isTerminal c.state = false) :
    transitionState c t o now =
      .ok { mergeUpdates c o.updates with
            state := t
            stateHistory := c.stateHistory ++
              [{ fromState := c.state, toState := t, timestamp := now,
                 reason := o.reason, actor := o.actor }]
            updatedAt := now } := by
  simp [transitionState, hne, hv, ht]

/-! ## Claim theorems -/

/-- C1: the claim states that for a checkout in BOOKED,
`transition(checkoutId, CANCELED, {actor})` succeeds as the one allowed
post-terminal transition.  The code disagrees with itself: BOOKED →
CANCELED is in `VALID_TRANSITIONS` (commented "Post-booking
cancellation"), but the `isTerminal` guard runs afterwards with no
exception for it, so the transition always throws the terminal-state
`StateMachineError`. -/
theorem booked_to_canceled_raises_terminal_error (c : Checkout)
    (o : TransitionOptions) (now : Nat) (h : c.state = BOOKED) :
    transitionState c CANCELED o now =
      .error (.terminalState BOOKED CANCELED) := by
  simp [transitionState, h, isValidTransition, isTerminal, VALID_TRANSITIONS,
        TERMINAL_STATES]

/-- Witness for C1 at a concrete BOOKED checkout. -/
theorem booked_to_canceled_raises_terminal_error_witness :
    bookedCheckout.state = BOOKED ∧
    transitionState bookedCheckout CANCELED { actor := .user } 7 =
      .error (.terminalState BOOKED CANCELED) :=
  ⟨rfl, booked_to_canceled_raises_terminal_error bookedCheckout
    { actor := .user } 7 rfl⟩

/-- C6: when the target state equals the current state, `transitionState`
returns the document unchanged — no history entry, no `updatedAt` bump, no
error. -/
theorem transition_to_current_state_is_noop (c : Checkout)
    (t : CheckoutState) (o : TransitionOptions) (now : Nat)
    (h : c.state = t) :
    transitionState c t o now = .ok c := by
  simp [transitionState, h]

/-- Witness for C6: a BOOKED checkout asked to move to BOOKED. -/
theorem transition_to_current_state_is_noop_witness :
    transitionState bookedCheckout BOOKED { actor := .webhook } 9 =
      .ok bookedCheckout :=
  transition_to_current_state_is_noop bookedCheckout BOOKED
    { actor := .webhook } 9 rfl

/-- C5: `createHold` on a checkout already in HOLD_CREATED or with a
reservation id returns it unchanged without calling the PMS; consequently
a repeated `createHold` after any successful one performs no further PMS
create. -/
theorem createHold_fast_path_idempotent (c : Checkout)
    (f g : Unit → StaysReservation) (now now2 ttl ttl2 : Nat) :
    (c.state = HOLD_CREATED ∨ c.staysReservationId.isSome →
      createHold c f now ttl = .ok { checkout := c, pmsCreateCalled := false }) ∧
    (∀ out, createHold c f now ttl = .ok out →
      createHold out.checkout g now2 ttl2 =
        .ok { checkout := out.checkout, pmsCreateCalled := false }) := by
  constructor
  · intro h
    simp [createHold, h]
  · intro out hout
    by_cases hfast : c.state = HOLD_CREATED ∨ c.staysReservationId.isSome
    · have : out = { checkout := c, pmsCreateCalled := false } := by
        simpa [createHold, hfast] using hout.symm
      subst this
      simp [createHold, hfast]
    · push_neg at hfast
      obtain ⟨hA, hB⟩ := hfast
      have hB' : c.staysReservationId.isSome = false := by
        simpa using hB
      by_cases hinit : c.state = INITIATED
      · match hg : c.guest with
        | none =>
          simp [createHold, hA, hB', hinit, hg] at hout
        | some gi =>
          by_cases hmail : gi.email = ""
          · simp [createHold, hA, hB', hinit, hg, hmail] at hout
          · simp [createHold, hA, hB', hinit, hg, hmail] at hout
            subst hout
            simp [createHold]
      · simp [createHold, hA, hB', hinit] at hout

/-- Witness for C5 at a concrete HOLD_CREATED checkout. -/
theorem createHold_fast_path_idempotent_witness :
    createHold holdCheckout staysCreateStub 5 15 =
      .ok { checkout := holdCheckout, pmsCreateCalled := false } :=
  (createHold_fast_path_idempotent holdCheckout staysCreateStub staysCreateStub
    5 6 15 15).1 (Or.inl rfl)

/-- C7 counterexample: the claim says `updateGuestInfo` rejects with
`INVALID_STATE_FOR_UPDATE` outside INITIATED / HOLD_CREATED /
PAYMENT_CREATED and leaves the document unchanged.  The code performs a
plain `docRef.update({ guest, updatedAt })` with no state check at all:
on a CANCELED checkout it succeeds and changes the document. -/
theorem updateGuestInfo_no_state_check_cex :
    canceledCheckout.state = CANCELED ∧
    updateGuestInfo canceledCheckout sampleGuest 9 =
      { canceledCheckout with guest := some sampleGuest, updatedAt := 9 } ∧
    updateGuestInfo canceledCheckout sampleGuest 9 ≠ canceledCheckout :=
  ⟨rfl, rfl, by decide⟩

/-- C7 amended: `updateGuestInfo` writes exactly `guest` and `updatedAt`
and leaves every other field (including `state`) unchanged, in every
state; it never rejects for the state. -/
theorem updateGuestInfo_writes_guest_only (c : Checkout) (g : GuestInfo)
    (now : Nat) :
    updateGuestInfo c g now = { c with guest := some g, updatedAt := now } :=
  rfl

/-- C2 counterexample: the claim says the PaymentIntent amount equals
`quote.total` exactly, with no scaling.  On a HOLD_CREATED checkout with
`quote.total = 120000` the code requests `Math.round(120000 * 100) =
12000000`: `createPaymentIntent` multiplies the total by 100
("convert to centavos"). -/
theorem createPaymentIntent_scales_amount_cex :
    holdCheckout.quote.total = 120000 ∧
    ((createPaymentIntent holdCheckout pspRetrieveStub pspCreateStub
        5).toOption.bind (fun o => o.pspCreateRequest)).map
      PaymentIntentRequest.amount = some 12000000 ∧
    (12000000 : Int) ≠ 120000 := by
  refine ⟨rfl, ?_, by decide⟩
  rfl

/-- C2 amended: for a HOLD_CREATED checkout with no prior PaymentIntent
and a BRL quote, `createPaymentIntent` issues the PSP create with amount
`Math.round(quote.total * 100)` — the total scaled from currency units to
centavos (exactly `quote.total * 100` on integer totals) — not
`quote.total` itself. -/
theorem createPaymentIntent_amount_is_total_times_100 (c : Checkout)
    (retrieve : String → PaymentIntent)
    (create : PaymentIntentRequest → PaymentIntent) (now : Nat)
    (hpi : c.stripePaymentIntentId = none) (hs : c.state = HOLD_CREATED)
    (hc : jsToUpperCase c.quote.currency = "BRL") :
    ∃ out, createPaymentIntent c retrieve create now = .ok out ∧
      ∃ req, out.pspCreateRequest = some req ∧
        req.amount = c.quote.total * 100 := by
  have hne : ¬ c.state = PAYMENT_CREATED := by rw [hs]; decide
  have hv : isValidTransition c.state PAYMENT_CREATED = true := by
    rw [hs]; decide
  have ht : isTerminal c.state = false := by rw [hs]; decide
  simp only [createPaymentIntent, hpi]
  simp only [if_neg (show ¬ (c.state ≠ HOLD_CREATED) by simp [hs]),
             if_neg (show ¬ (jsToUpperCase c.quote.currency ≠ "BRL") by
               simp [hc])]
  rw [transitionState_ok_of_valid c PAYMENT_CREATED _ now hne hv ht]
  exact ⟨_, rfl, _, rfl, rfl⟩

/-- Witness for C2's amended theorem at a concrete HOLD_CREATED
checkout. -/
theorem createPaymentIntent_amount_is_total_times_100_witness :
    ∃ out, createPaymentIntent holdCheckout pspRetrieveStub pspCreateStub 5 =
        .ok out ∧
      ∃ req, out.pspCreateRequest = some req ∧
        req.amount = holdCheckout.quote.total * 100 :=
  createPaymentIntent_amount_is_total_times_100 holdCheckout pspRetrieveStub
    pspCreateStub 5 rfl rfl rfl

/-- C3: the claim says a late `payment_intent.succeeded` for an EXPIRED
checkout has `tryTransition(PAID)` return null inside the handler, the
event marked processed and a 200 answer.  `tryTransitionState` would
indeed return null (first conjunct), but `handlePaymentSucceeded` calls
the throwing `transitionState` instead and the ingress catch answers 500
WITHOUT marking the event processed (second conjunct); only the "no PMS
calls, no state change" part survives (the trace is empty). -/
theorem late_succeeded_webhook_on_expired_gets_500 (c : Checkout)
    (cid piId resCode : String) (store : String → Option Checkout)
    (now now2 : Nat) (hstate : c.state = EXPIRED) (hcid : ¬ cid = "")
    (hstore : store cid = some c) :
    tryTransitionState c PAID
        { actor := .webhook, reason := some "Payment succeeded" } now =
      none ∧
    stripeWebhookIngress false (.paymentIntentSucceeded piId (some cid))
        store resCode now now2 =
      ({ status := 500, body := .processingFailed, markedProcessed := false,
         dispatched := some cid }, StaysTrace.none) := by
  have htr : transitionState c PAID
      { actor := .webhook, reason := some "Payment succeeded" } now =
      .error (.invalidTransition EXPIRED PAID) := by
    simp [transitionState, hstate, isValidTransition, VALID_TRANSITIONS]
  refine ⟨by simp [tryTransitionState, htr], ?_⟩
  simp [stripeWebhookIngress, jsStrFalsy, hcid, hstore,
        handlePaymentSucceeded, htr]

/-- Witness for C3 at a concrete EXPIRED checkout. -/
theorem late_succeeded_webhook_on_expired_gets_500_witness :
    tryTransitionState expiredCheckout PAID
        { actor := .webhook, reason := some "Payment succeeded" } 21 =
      none ∧
    stripeWebhookIngress false (.paymentIntentSucceeded "pi_1" (some "ck_1"))
        (fun s => if s = "ck_1" then some expiredCheckout else none)
        "B42" 21 22 =
      ({ status := 500, body := .processingFailed, markedProcessed := false,
         dispatched := some "ck_1" }, StaysTrace.none) :=
  late_succeeded_webhook_on_expired_gets_500 expiredCheckout "ck_1" "pi_1"
    "B42" (fun s => if s = "ck_1" then some expiredCheckout else none)
    21 22 rfl (by decide) rfl

/-- C4: nothing persisted depends on the PSP client secret.  Replacing
the PSP oracles by any others that agree on the PaymentIntent ids (so
client secrets may differ arbitrarily) leaves the entire outcome of
`createPaymentIntent` — the document written, the create request issued,
the state, the errors — unchanged except for the `clientSecret` returned
to the caller.  The other write paths (`initializeCheckout`, `createHold`,
`transitionState`) never receive the secret at all, as their argument
types show. -/
theorem client_secret_not_persisted (c : Checkout)
    (retrieve retrieve' : String → PaymentIntent)
    (create create' : PaymentIntentRequest → PaymentIntent) (now : Nat)
    (hid : ∀ r, (create r).id = (create' r).id) :
    (createPaymentIntent c retrieve create now).map
        (fun o => { o with clientSecret := "" }) =
      (createPaymentIntent c retrieve' create' now).map
        (fun o => { o with clientSecret := "" }) := by
  cases hpi : c.stripePaymentIntentId with
  | some piId => simp [createPaymentIntent, hpi, Except.map]
  | none =>
    by_cases hs : c.state = HOLD_CREATED
    · by_cases hcur : jsToUpperCase c.quote.currency = "BRL"
      · simp only [createPaymentIntent, hpi]
        simp only [if_neg (show ¬ (c.state ≠ HOLD_CREATED) by simp [hs]),
                   if_neg (show ¬ (jsToUpperCase c.quote.currency ≠ "BRL") by
                     simp [hcur])]
        rw [hid]
        cases transitionState c PAYMENT_CREATED
            (cpiOptions (create' (cpiRequest c)).id) now <;> rfl
      · simp [createPaymentIntent, hpi, hs, hcur]
    · simp [createPaymentIntent, hpi, hs]

/-- Witness for C4: two PSP oracles answering the same id with different
secrets produce the same persisted outcome. -/
theorem client_secret_not_persisted_witness :
    (createPaymentIntent holdCheckout pspRetrieveStub pspCreateStub 5).map
        (fun o => { o with clientSecret := "" }) =
      (createPaymentIntent holdCheckout pspRetrieveStub pspCreateStubB 5).map
        (fun o => { o with clientSecret := "" }) :=
  client_secret_not_persisted holdCheckout pspRetrieveStub pspRetrieveStub
    pspCreateStub pspCreateStubB 5 (fun _ => rfl)

/-- C8 counterexample: the claim says a NOT_FOUND from the PMS is
tolerated and the CANCELED transition still runs.  There is no try/catch
around `cancelReservation`: a 404 `StaysApiError` propagates out of
`cancelCheckout` and no transition is attempted. -/
theorem cancelCheckout_404_aborts_cex :
    holdCheckout.staysReservationId = some "R1" ∧
    cancelCheckout holdCheckout none (fun _ => .err 404) 11 =
      (.error (.staysError 404), true) :=
  ⟨rfl, rfl⟩

/-- C8 amended: with a reservation id set, `cancelCheckout` calls the PMS
cancel; any PMS error — NOT_FOUND included — propagates and aborts before
any transition, and only when the PMS cancel succeeds does it delegate to
`transition(CANCELED, actor: user, reason)`. -/
theorem cancelCheckout_pms_then_transition (c : Checkout)
    (reason : Option String) (pms : String → StaysCancelResult) (now : Nat)
    (rid : String) (s : Nat) (hrid : c.staysReservationId = some rid) :
    (pms rid = .err s →
      cancelCheckout c reason pms now = (.error (.staysError s), true)) ∧
    (pms rid = .ok →
      cancelCheckout c reason pms now =
        ((transitionState c CANCELED
            { actor := .user, reason := some (jsOr reason "User canceled") }
            now).mapError CancelErr.stateMachine, true)) := by
  constructor
  · intro h
    simp [cancelCheckout, hrid, h]
  · intro h
    simp only [cancelCheckout, hrid, h]
    cases transitionState c CANCELED
        { actor := .user, reason := some (jsOr reason "User canceled") } now
      <;> simp [Except.mapError]

/-- Witness for C8's amended theorem: a succeeding PMS cancel followed by
the CANCELED transition. -/
theorem cancelCheckout_pms_then_transition_witness :
    cancelCheckout holdCheckout none (fun _ => StaysCancelResult.ok) 11 =
      ((transitionState holdCheckout CANCELED
          { actor := .user, reason := some (jsOr none "User canceled") }
          11).mapError CancelErr.stateMachine, true) :=
  (cancelCheckout_pms_then_transition holdCheckout none (fun _ => .ok) 11
    "R1" 0 rfl).2 rfl

/-- C9: the claim says retryable (5xx) failures on read paths are retried
up to 2 times (3 attempts total) with 1 s and 2 s backoffs.  The code sets
`maxAttempts = retry ? MAX_RETRIES : 1` with `MAX_RETRIES = 2`, so an
always-5xx request performs exactly 2 attempts with a single 1000 ms
backoff before the error surfaces — the 2000 ms second backoff is
unreachable. -/
theorem stays_read_retry_two_attempts_total :
    MAX_RETRIES = 2 ∧
    staysRequest (fun _ => .httpError 500) true =
      (.staysError 500, 2, [1000]) :=
  ⟨rfl, rfl⟩

/-- C10: a verified, not-yet-processed `payment_intent.succeeded` whose
PaymentIntent metadata has no `checkoutId` dispatches no handler (the
switch breaks after a warning), yet still reaches `markProcessed()` and
the 200 response, so later deliveries of the same event id are dropped as
`already_processed`. -/
theorem webhook_missing_checkout_id_still_marked (piId resCode : String)
    (store : String → Option Checkout) (now now2 : Nat) :
    stripeWebhookIngress false (.paymentIntentSucceeded piId none) store
        resCode now now2 =
      ({ status := 200, body := .received, markedProcessed := true,
         dispatched := none }, StaysTrace.none) :=
  rfl

end Vivare
